import Mathlib

/-!
Verification of `backend/foodgram_backend/recipes/views.py` of the
recipe-sharing web API (`website_for_recipes`).

The views are embedded shallowly: the database is a record of row lists
(Recipe, Favorite, ShoppingCart, IngredientRecipe, Ingredient, Tag),
each handler is a pure function from a database and request parameters
to an HTTP result and the new database.  ORM calls
(`filter(...).exists()`, `get`, `create`/`save`, `delete`,
`get_object_or_404`) become list operations on the corresponding table.
-/

namespace Foodgram

/-- A `Recipe` row: primary key `id` and the author's user id. -/
structure Recipe where
  id : Nat
  author : Nat
deriving DecidableEq, Repr

/-- A row of the `Favorite` or `ShoppingCart` relation table:
a (user, recipe) pair, the recipe stored by its primary key. -/
structure Rel where
  user : Nat
  recipe : Nat
deriving DecidableEq, Repr

/-- An `IngredientRecipe` association row: which ingredient, in which
recipe, in what amount. -/
structure IngredientRecipe where
  recipe : Nat
  ingredient : Nat
  amount : Nat
deriving DecidableEq, Repr

/-- The database state: one list of rows per table touched by the views. -/
structure Db where
  recipes : List Recipe
  favorites : List Rel
  cart : List Rel
  ingredientRecipes : List IngredientRecipe
  ingredients : List Nat
  tags : List Nat
deriving DecidableEq, Repr

/-- The two relation models the toggle actions are instantiated at:
`Favorite` and `ShoppingCart` in `recipes/models.py`. -/
inductive RelModel where
  | Favorite
  | ShoppingCart
deriving DecidableEq, Repr

/-- `model.objects` for a relation model: the rows of its table. -/
def Db.relRows (db : Db) : RelModel → List Rel
  | .Favorite => db.favorites
  | .ShoppingCart => db.cart

/-- Write back the rows of one relation table, leaving the rest of the
database unchanged. -/
def Db.setRelRows (db : Db) : RelModel → List Rel → Db
  | .Favorite, rows => { db with favorites := rows }
  | .ShoppingCart, rows => { db with cart := rows }

/-- The outcome a handler hands to the framework: a normal `Response`
with an HTTP status code and an optional serialized relation row as
body, a `ValidationError` (rendered by the framework as a 400-series
response), or the `Http404` raised by `get_object_or_404`. -/
inductive HttpResult where
  | ok (statusCode : Nat) (body : Option Rel)
  | validationError (msg : String)
  | notFound
deriving DecidableEq, Repr

/-- The two HTTP methods routed to the toggle actions
(`methods=['post', 'delete']`). -/
inductive HttpMethod where
  | POST
  | DELETE
deriving DecidableEq, Repr

/-- `Recipe.objects.filter(id=pk).exists()`. -/
def recipeExists (db : Db) (pk : Nat) : Bool :=
  db.recipes.any (fun r => r.id == pk)

/-- `model.objects.filter(recipe=recipe, user=user).exists()`. -/
def relExists (rows : List Rel) (user pk : Nat) : Bool :=
  rows.any (fun row => row.user == user && row.recipe == pk)

/-- `RecipeViewSet.add_recipe` (views.py lines 114-128): reject a
missing recipe id with a `ValidationError`, reject a duplicate
(user, recipe) row with a `ValidationError`, otherwise save one new
relation row and answer `201 Created` with the serialized row.
The relation serializer (`FavoriteSerializer` / `ShoppingCartSerializer`,
not part of the viewed source) contributes no further checks here:
`serializer.save(user=user, recipe=recipe)` supplies both fields. -/
def add_recipe (db : Db) (user pk : Nat) (model : RelModel) (message : String) :
    HttpResult × Db :=
  if ¬ recipeExists db pk then
    (.validationError "Рецепта с таким id не существует", db)
  else if relExists (db.relRows model) user pk then
    (.validationError ("Рецепт уже добавлен в " ++ message), db)
  else
    let row : Rel := { user := user, recipe := pk }
    (.ok 201 (some row), db.setRelRows model (db.relRows model ++ [row]))

/-- `RecipeViewSet.delete_recipe` (views.py lines 130-138):
`get_object_or_404(Recipe, pk=pk)` answers 404 on a missing recipe id;
a missing (user, recipe) row raises a `ValidationError`; otherwise the
row found by `get_object_or_404(model, ...)` is deleted and the answer
is `204 No Content`. -/
def delete_recipe (db : Db) (user pk : Nat) (model : RelModel) (message : String) :
    HttpResult × Db :=
  if ¬ recipeExists db pk then
    (.notFound, db)
  else if ¬ relExists (db.relRows model) user pk then
    (.validationError ("Рецепт не добавлен в " ++ message), db)
  else
    (.ok 204 none,
      db.setRelRows model
        ((db.relRows model).eraseP (fun row => row.user == user && row.recipe == pk)))

/-- `RecipeViewSet.favorite` (views.py lines 67-80): dispatch the POST
method to `add_recipe` and the DELETE method to `delete_recipe`, both at
the `Favorite` model with message `'избранное'`. -/
def favorite (db : Db) (method : HttpMethod) (user pk : Nat) : HttpResult × Db :=
  let message := "избранное"
  match method with
  | .POST => add_recipe db user pk .Favorite message
  | .DELETE => delete_recipe db user pk .Favorite message

/-- `RecipeViewSet.shopping_cart` (views.py lines 82-95): dispatch the
POST method to `add_recipe` and the DELETE method to `delete_recipe`,
both at the `ShoppingCart` model with message `'список покупок'`. -/
def shopping_cart (db : Db) (method : HttpMethod) (user pk : Nat) : HttpResult × Db :=
  let message := "список покупок"
  match method with
  | .POST => add_recipe db user pk .ShoppingCart message
  | .DELETE => delete_recipe db user pk .ShoppingCart message

/-- `RecipeViewSet.download_shopping_cart` (views.py lines 97-112):
collect the recipes of the requesting user's cart rows, build — by an
indexed `for` loop over `range(len(recipes))` — one list of
`IngredientRecipe` rows per cart row, and return `download(ingredients)`.
The external helper `recipes.utils.download` is abstracted as the
parameter `dl`. -/
def download_shopping_cart {α : Type} (dl : List (List IngredientRecipe) → α)
    (db : Db) (user : Nat) : α :=
  let recipes := (db.cart.filter (fun row => row.user == user)).map (fun row => row.recipe)
  let ingredients := (List.range recipes.length).foldl
    (fun acc i =>
      acc ++ [db.ingredientRecipes.filter (fun ir => ir.recipe == recipes.getD i 0)]) []
  dl ingredients

/-- What the spec asserts `download_shopping_cart` passes to the helper:
for each cart row of the user, in cart-row order, the ingredient
association rows of that row's recipe. -/
def shoppingListSpec (db : Db) (user : Nat) : List (List IngredientRecipe) :=
  (db.cart.filter (fun row => row.user == user)).map
    (fun row => db.ingredientRecipes.filter (fun ir => ir.recipe == row.recipe))

/-- The validated data of a recipe-create request body: the new row's
primary key and an author field possibly smuggled into the body. -/
structure RecipeData where
  id : Nat
  authorField : Option Nat
deriving DecidableEq, Repr

/-- `RecipeViewSet.perform_create` (views.py lines 63-65):
`serializer.save(author=self.request.user)` — the stored row's author is
the requesting user, whatever the request body carried. -/
def perform_create (db : Db) (requestUser : Nat) (data : RecipeData) : Db :=
  { db with recipes := db.recipes ++ [{ id := data.id, author := requestUser }] }

end Foodgram

namespace Foodgram

/-- Modelled from the spec: `recipes/permissions.py` is not among the
viewed sources; the spec describes the `RecipeViewSet` permission pair
`(IsAuthorOrReadOnly, IsAuthenticatedOrReadOnly)` as author-based write
permission — safe (read) methods are open to everyone, object writes
require being the object's author. -/
def IsAuthorOrReadOnly (safe : Bool) (userId authorId : Nat) : Bool :=
  safe || (userId == authorId)

/-- Modelled from the spec: the framework's `IsAuthenticatedOrReadOnly` —
safe methods are open, writes require an authenticated requester. -/
def IsAuthenticatedOrReadOnly (safe authenticated : Bool) : Bool :=
  safe || authenticated

/-- The conjunction of `RecipeViewSet.permission_classes` for a request
against an existing recipe object (update/delete). -/
def recipeObjectPermitted (safe authenticated : Bool) (userId authorId : Nat) : Bool :=
  IsAuthorOrReadOnly safe userId authorId && IsAuthenticatedOrReadOnly safe authenticated

/-- The permission check for create: no object exists yet, so only the
request-level check of `IsAuthenticatedOrReadOnly` applies, with a
non-safe method. -/
def recipeCreatePermitted (authenticated : Bool) : Bool :=
  IsAuthenticatedOrReadOnly false authenticated

end Foodgram

namespace Foodgram

/-- The viewset actions a REST-framework mixin can contribute. -/
inductive ViewAction where
  | list
  | retrieve
  | create
  | update
  | destroy
deriving DecidableEq, Repr

/-- Actions contributed by `mixins.ListModelMixin`. -/
def listModelMixinActions : List ViewAction := [.list]

/-- Actions contributed by `mixins.RetrieveModelMixin`. -/
def retrieveModelMixinActions : List ViewAction := [.retrieve]

/-- Actions contributed by `viewsets.GenericViewSet` itself: none. -/
def genericViewSetActions : List ViewAction := []

/-- The actions `IngredientViewSet` exposes (views.py lines 33-44): the
sum of its base classes' actions. -/
def ingredientViewSetActions : List ViewAction :=
  listModelMixinActions ++ retrieveModelMixinActions ++ genericViewSetActions

/-- The actions `TagViewSet` exposes (views.py lines 141-150). -/
def tagViewSetActions : List ViewAction :=
  listModelMixinActions ++ retrieveModelMixinActions ++ genericViewSetActions

/-- `IngredientViewSet.pagination_class = None`. -/
def ingredientViewSetPagination : Option Unit := none

/-- `TagViewSet.pagination_class = None`. -/
def tagViewSetPagination : Option Unit := none

/-- Dispatch a request to `IngredientViewSet`: only the exposed actions
are routed; `list` answers the full `Ingredient` table, `retrieve` the
row with the requested primary key. -/
def ingredientDispatch (db : Db) (a : ViewAction) (pk : Nat) :
    Option (Db × List Nat) :=
  if a ∈ ingredientViewSetActions then
    match a with
    | .list => some (db, db.ingredients)
    | .retrieve => some (db, db.ingredients.filter (fun i => i == pk))
    | _ => none
  else none

/-- Dispatch a request to `TagViewSet`, analogously. -/
def tagDispatch (db : Db) (a : ViewAction) (pk : Nat) :
    Option (Db × List Nat) :=
  if a ∈ tagViewSetActions then
    match a with
    | .list => some (db, db.tags)
    | .retrieve => some (db, db.tags.filter (fun i => i == pk))
    | _ => none
  else none

/-- The number of rows of a relation table for one (user, recipe) pair. -/
def relCount (rows : List Rel) (user pk : Nat) : Nat :=
  rows.countP (fun row => row.user == user && row.recipe == pk)

/-- The uniqueness invariant of a relation table: at most one row per
(user, recipe) pair. -/
def uniqueRels (rows : List Rel) : Prop :=
  ∀ user pk, relCount rows user pk ≤ 1

/-- The database invariant: both relation tables are duplicate-free per
(user, recipe) pair. -/
def Db.inv (db : Db) : Prop :=
  uniqueRels db.favorites ∧ uniqueRels db.cart

/-! Helper lemmas about the table write-back and the invariant. -/

lemma relRows_setRelRows_same (db : Db) (m : RelModel) (rows : List Rel) :
    (db.setRelRows m rows).relRows m = rows := by
  cases m <;> rfl

lemma setRelRows_recipes (db : Db) (m : RelModel) (rows : List Rel) :
    (db.setRelRows m rows).recipes = db.recipes := by
  cases m <;> rfl

lemma setRelRows_ingredientRecipes (db : Db) (m : RelModel) (rows : List Rel) :
    (db.setRelRows m rows).ingredientRecipes = db.ingredientRecipes := by
  cases m <;> rfl

lemma setRelRows_fav_cart (db : Db) (rows : List Rel) :
    (db.setRelRows .Favorite rows).cart = db.cart := rfl

lemma setRelRows_cart_fav (db : Db) (rows : List Rel) :
    (db.setRelRows .ShoppingCart rows).favorites = db.favorites := rfl

lemma add_recipe_snd_eq (db : Db) (u pk : Nat) (m : RelModel) (msg : String) :
    (add_recipe db u pk m msg).2 = db ∨
      ((add_recipe db u pk m msg).2
          = db.setRelRows m (db.relRows m ++ [{ user := u, recipe := pk }])
        ∧ relExists (db.relRows m) u pk = false) := by
  unfold add_recipe
  split
  · exact Or.inl rfl
  · split
    · exact Or.inl rfl
    · rename_i h2
      exact Or.inr ⟨rfl, by simpa using h2⟩

lemma delete_recipe_snd_eq (db : Db) (u pk : Nat) (m : RelModel) (msg : String) :
    (delete_recipe db u pk m msg).2 = db ∨
      (delete_recipe db u pk m msg).2
        = db.setRelRows m
            ((db.relRows m).eraseP (fun row => row.user == u && row.recipe == pk)) := by
  unfold delete_recipe
  split
  · exact Or.inl rfl
  · split
    · exact Or.inl rfl
    · exact Or.inr rfl

lemma relExists_false_countP {rows : List Rel} {u pk : Nat}
    (h : relExists rows u pk = false) : relCount rows u pk = 0 := by
  rw [relCount, List.countP_eq_zero]
  intro a ha
  exact (List.any_eq_false.mp h) a ha

lemma uniqueRels_append {rows : List Rel} {u pk : Nat}
    (hne : relExists rows u pk = false) (h : uniqueRels rows) :
    uniqueRels (rows ++ [{ user := u, recipe := pk }]) := by
  intro u' pk'
  unfold relCount
  rw [List.countP_append]
  by_cases hc : u' = u ∧ pk' = pk
  · obtain ⟨h1, h2⟩ := hc
    subst h1
    subst h2
    have h0 := relExists_false_countP hne
    unfold relCount at h0
    simp [h0, List.countP_cons]
  · have hp : ((fun row => row.user == u' && row.recipe == pk')
        ({ user := u, recipe := pk } : Rel)) = false := by
      simp only [Bool.and_eq_false_iff, beq_eq_false_iff_ne]
      by_cases h1 : u = u'
      · subst h1
        right
        intro h2
        exact hc ⟨rfl, h2.symm⟩
      · left
        exact fun h2 => h1 h2
    simp only [List.countP_cons, List.countP_nil, hp]
    simpa using h u' pk'

lemma uniqueRels_eraseP {rows : List Rel} (p : Rel → Bool) (h : uniqueRels rows) :
    uniqueRels (rows.eraseP p) := by
  intro u pk
  exact le_trans (List.Sublist.countP_le _ (List.eraseP_sublist rows)) (h u pk)

lemma inv_setRelRows {db : Db} {m : RelModel} {rows : List Rel}
    (h : db.inv) (hrows : uniqueRels rows) : (db.setRelRows m rows).inv := by
  cases m
  · exact ⟨hrows, h.2⟩
  · exact ⟨h.1, hrows⟩

/-- The empty database, used to instantiate hypothesised theorems. -/
def dbEmpty : Db := ⟨[], [], [], [], [], []⟩

/-- A small database: one recipe with id 1 by author 7, favorited by
user 5; used to instantiate hypothesised theorems. -/
def dbOne : Db := ⟨[{ id := 1, author := 7 }], [{ user := 5, recipe := 1 }], [], [], [], []⟩

lemma inv_relRows {db : Db} (h : db.inv) (m : RelModel) : uniqueRels (db.relRows m) := by
  cases m
  · exact h.1
  · exact h.2

lemma add_recipe_inv {db : Db} (u pk : Nat) (m : RelModel) (msg : String)
    (h : db.inv) : (add_recipe db u pk m msg).2.inv := by
  rcases add_recipe_snd_eq db u pk m msg with heq | ⟨heq, hne⟩ <;> rw [heq]
  · exact h
  · exact inv_setRelRows h (uniqueRels_append hne (inv_relRows h m))

lemma delete_recipe_inv {db : Db} (u pk : Nat) (m : RelModel) (msg : String)
    (h : db.inv) : (delete_recipe db u pk m msg).2.inv := by
  rcases delete_recipe_snd_eq db u pk m msg with heq | heq <;> rw [heq]
  · exact h
  · exact inv_setRelRows h (uniqueRels_eraseP _ (inv_relRows h m))

lemma add_recipe_recipes (db : Db) (u pk : Nat) (m : RelModel) (msg : String) :
    (add_recipe db u pk m msg).2.recipes = db.recipes := by
  rcases add_recipe_snd_eq db u pk m msg with heq | ⟨heq, _⟩
  · rw [heq]
  · rw [heq, setRelRows_recipes]

lemma delete_recipe_recipes (db : Db) (u pk : Nat) (m : RelModel) (msg : String) :
    (delete_recipe db u pk m msg).2.recipes = db.recipes := by
  rcases delete_recipe_snd_eq db u pk m msg with heq | heq
  · rw [heq]
  · rw [heq, setRelRows_recipes]

lemma add_recipe_fav_cart (db : Db) (u pk : Nat) (msg : String) :
    (add_recipe db u pk .Favorite msg).2.cart = db.cart := by
  rcases add_recipe_snd_eq db u pk .Favorite msg with heq | ⟨heq, _⟩
  · rw [heq]
  · rw [heq]
    rfl

lemma delete_recipe_fav_cart (db : Db) (u pk : Nat) (msg : String) :
    (delete_recipe db u pk .Favorite msg).2.cart = db.cart := by
  rcases delete_recipe_snd_eq db u pk .Favorite msg with heq | heq
  · rw [heq]
  · rw [heq]
    rfl

lemma add_recipe_cart_fav (db : Db) (u pk : Nat) (msg : String) :
    (add_recipe db u pk .ShoppingCart msg).2.favorites = db.favorites := by
  rcases add_recipe_snd_eq db u pk .ShoppingCart msg with heq | ⟨heq, _⟩
  · rw [heq]
  · rw [heq]
    rfl

lemma delete_recipe_cart_fav (db : Db) (u pk : Nat) (msg : String) :
    (delete_recipe db u pk .ShoppingCart msg).2.favorites = db.favorites := by
  rcases delete_recipe_snd_eq db u pk .ShoppingCart msg with heq | heq
  · rw [heq]
  · rw [heq]
    rfl

/-! The claims. -/

/-- Claim C1, counterexample: with no recipe of id 1 in the database, the
POST add path answers a `ValidationError`, not the 404 the claim asserts
for both paths. -/
theorem add_missing_recipe_not_404 :
    (add_recipe dbEmpty 0 1 .Favorite "избранное").1
        = .validationError "Рецепта с таким id не существует"
      ∧ (add_recipe dbEmpty 0 1 .Favorite "избранное").1 ≠ .notFound := by
  constructor
  · rfl
  · decide

/-- Claim C1 (amended): on a missing recipe id the DELETE path answers
404 through `get_object_or_404`, while the POST add path raises a
`ValidationError` instead; neither changes the database. -/
theorem missing_recipe_delete_404_add_validation
    (db : Db) (u pk : Nat) (m : RelModel) (msg : String)
    (h : recipeExists db pk = false) :
    delete_recipe db u pk m msg = (.notFound, db)
      ∧ add_recipe db u pk m msg
          = (.validationError "Рецепта с таким id не существует", db) := by
  constructor <;> simp [delete_recipe, add_recipe, h]

/-- Instantiation of the amended C1 theorem at the empty database. -/
theorem missing_recipe_delete_404_add_validation_witness :
    recipeExists dbEmpty 1 = false
      ∧ (delete_recipe dbEmpty 0 1 .Favorite "избранное" = (.notFound, dbEmpty)
        ∧ add_recipe dbEmpty 0 1 .Favorite "избранное"
            = (.validationError "Рецепта с таким id не существует", dbEmpty)) :=
  ⟨by decide,
    missing_recipe_delete_404_add_validation dbEmpty 0 1 .Favorite "избранное" (by decide)⟩

/-- Claim C2: for an existing recipe, the add path rejects a duplicate
(user, recipe) row with a `ValidationError` and otherwise appends exactly
one row to the relation table; the delete path rejects a missing row with
a `ValidationError` and otherwise erases exactly one row. -/
theorem toggle_existence_check_single_row
    (db : Db) (u pk : Nat) (m : RelModel) (msg : String)
    (hr : recipeExists db pk = true) :
    (relExists (db.relRows m) u pk = true →
        add_recipe db u pk m msg
          = (.validationError ("Рецепт уже добавлен в " ++ msg), db))
      ∧ (relExists (db.relRows m) u pk = false →
          (add_recipe db u pk m msg).2.relRows m
            = db.relRows m ++ [{ user := u, recipe := pk }])
      ∧ (relExists (db.relRows m) u pk = false →
          delete_recipe db u pk m msg
            = (.validationError ("Рецепт не добавлен в " ++ msg), db))
      ∧ (relExists (db.relRows m) u pk = true →
          (delete_recipe db u pk m msg).2.relRows m
              = (db.relRows m).eraseP (fun row => row.user == u && row.recipe == pk)
            ∧ ((delete_recipe db u pk m msg).2.relRows m).length + 1
                = (db.relRows m).length) := by
  refine ⟨?_, ?_, ?_, ?_⟩
  · intro he
    simp [add_recipe, hr, he]
  · intro he
    simp [add_recipe, hr, he, relRows_setRelRows_same]
  · intro he
    simp [delete_recipe, hr, he]
  · intro he
    have h2 : (delete_recipe db u pk m msg).2.relRows m
        = (db.relRows m).eraseP (fun row => row.user == u && row.recipe == pk) := by
      simp [delete_recipe, hr, he, relRows_setRelRows_same]
    refine ⟨h2, ?_⟩
    rw [h2]
    obtain ⟨a, ha, hpa⟩ := List.any_eq_true.mp he
    exact List.length_eraseP_add_one ha hpa

/-- Instantiation of the C2 theorem: the duplicate add on `dbOne` is
rejected with a `ValidationError` and leaves the database unchanged. -/
theorem toggle_existence_check_single_row_witness :
    recipeExists dbOne 1 = true
      ∧ add_recipe dbOne 5 1 .Favorite "x"
          = (.validationError ("Рецепт уже добавлен в " ++ "x"), dbOne) :=
  ⟨by decide,
    (toggle_existence_check_single_row dbOne 5 1 .Favorite "x" (by decide)).1 (by decide)⟩

/-- Claim C3: the at-most-one-row-per-(user, recipe) invariant of the
Favorite and ShoppingCart tables is preserved by every operation, thanks
to the existence query run immediately before each insert. -/
theorem uniqueness_invariant_preserved
    (db : Db) (u pk dUser : Nat) (m : RelModel) (msg : String)
    (method : HttpMethod) (data : RecipeData) (h : db.inv) :
    (add_recipe db u pk m msg).2.inv
      ∧ (delete_recipe db u pk m msg).2.inv
      ∧ (favorite db method u pk).2.inv
      ∧ (shopping_cart db method u pk).2.inv
      ∧ (perform_create db dUser data).inv := by
  refine ⟨add_recipe_inv u pk m msg h, delete_recipe_inv u pk m msg h, ?_, ?_, ?_⟩
  · cases method
    · exact add_recipe_inv u pk .Favorite "избранное" h
    · exact delete_recipe_inv u pk .Favorite "избранное" h
  · cases method
    · exact add_recipe_inv u pk .ShoppingCart "список покупок" h
    · exact delete_recipe_inv u pk .ShoppingCart "список покупок" h
  · exact h

/-- Instantiation of the C3 theorem at the empty database. -/
theorem uniqueness_invariant_preserved_witness :
    dbEmpty.inv ∧ (add_recipe dbEmpty 0 1 .Favorite "x").2.inv :=
  have hinv : dbEmpty.inv :=
    ⟨fun u p => by simp [relCount, dbEmpty], fun u p => by simp [relCount, dbEmpty]⟩
  ⟨hinv, (uniqueness_invariant_preserved dbEmpty 0 1 0 .Favorite "x" .POST ⟨0, none⟩ hinv).1⟩

/-- Claim C4: a successful add answers 201 Created with the serialized
new relation row as body, and any `ok` outcome of the add path carries
exactly that status and body; a successful delete answers 204 No Content
with an empty body, and likewise for any `ok` outcome of the delete
path. -/
theorem success_status_codes
    (db : Db) (u pk : Nat) (m : RelModel) (msg : String)
    (hr : recipeExists db pk = true) :
    (relExists (db.relRows m) u pk = false →
        (add_recipe db u pk m msg).1 = .ok 201 (some { user := u, recipe := pk }))
      ∧ (relExists (db.relRows m) u pk = true →
          (delete_recipe db u pk m msg).1 = .ok 204 none)
      ∧ (∀ s b, (add_recipe db u pk m msg).1 = .ok s b
          → s = 201 ∧ b = some { user := u, recipe := pk })
      ∧ (∀ s b, (delete_recipe db u pk m msg).1 = .ok s b → s = 204 ∧ b = none) := by
  refine ⟨?_, ?_, ?_, ?_⟩
  · intro he
    simp [add_recipe, hr, he]
  · intro he
    simp [delete_recipe, hr, he]
  · intro s b hok
    cases h1 : recipeExists db pk
    · simp [add_recipe, h1] at hok
    · cases h2 : relExists (db.relRows m) u pk
      · simp [add_recipe, h1, h2] at hok
        exact ⟨hok.1.symm, by rw [hok.2]⟩
      · simp [add_recipe, h1, h2] at hok
  · intro s b hok
    cases h1 : recipeExists db pk
    · simp [delete_recipe, h1] at hok
    · cases h2 : relExists (db.relRows m) u pk
      · simp [delete_recipe, h1, h2] at hok
      · simp [delete_recipe, h1, h2] at hok
        exact ⟨hok.1.symm, hok.2.symm⟩

/-- Instantiation of the C4 theorem: deleting user 5's favorite of
recipe 1 from `dbOne` answers 204 No Content. -/
theorem success_status_codes_witness :
    recipeExists dbOne 1 = true
      ∧ (delete_recipe dbOne 5 1 .Favorite "x").1 = .ok 204 none :=
  ⟨by decide, (success_status_codes dbOne 5 1 .Favorite "x" (by decide)).2.1 (by decide)⟩

/-- Claim C5: `perform_create` stores the new recipe with the requesting
user as author — an author field carried by the request body is ignored —
and touches no other table; the row itself is the validated data passed
through to the ORM. -/
theorem perform_create_assigns_author
    (db : Db) (u : Nat) (data data' : RecipeData) (hid : data.id = data'.id) :
    (perform_create db u data).recipes
        = db.recipes ++ [{ id := data.id, author := u }]
      ∧ perform_create db u data = perform_create db u data'
      ∧ (perform_create db u data).favorites = db.favorites
      ∧ (perform_create db u data).cart = db.cart
      ∧ (perform_create db u data).ingredientRecipes = db.ingredientRecipes
      ∧ (perform_create db u data).ingredients = db.ingredients
      ∧ (perform_create db u data).tags = db.tags := by
  refine ⟨rfl, ?_, rfl, rfl, rfl, rfl, rfl⟩
  simp [perform_create, hid]

/-- Instantiation of the C5 theorem: the same recipe row is stored
whether or not the body smuggles in an author value. -/
theorem perform_create_assigns_author_witness :
    (⟨3, none⟩ : RecipeData).id = (⟨3, some 9⟩ : RecipeData).id
      ∧ perform_create dbEmpty 4 ⟨3, none⟩ = perform_create dbEmpty 4 ⟨3, some 9⟩ :=
  ⟨rfl, (perform_create_assigns_author dbEmpty 4 ⟨3, none⟩ ⟨3, some 9⟩ rfl).2.1⟩

/-- Claim C6: safe requests are permitted for everyone; create requires
authentication; update and delete of a recipe object require
authentication and authorship. -/
theorem recipe_permission_policy (authenticated : Bool) (userId authorId : Nat) :
    recipeObjectPermitted true authenticated userId authorId = true
      ∧ recipeCreatePermitted authenticated = authenticated
      ∧ recipeObjectPermitted false authenticated userId authorId
          = (authenticated && (userId == authorId)) := by
  refine ⟨?_, ?_, ?_⟩ <;>
    cases authenticated <;>
      simp [recipeObjectPermitted, recipeCreatePermitted,
        IsAuthorOrReadOnly, IsAuthenticatedOrReadOnly]

lemma foldl_range_append {β : Type} (g : Nat → β) :
    ∀ (n : Nat) (acc : List β),
      (List.range n).foldl (fun a i => a ++ [g i]) acc = acc ++ (List.range n).map g := by
  intro n
  induction n with
  | zero => intro acc; simp
  | succ k ih =>
      intro acc
      rw [List.range_succ, List.foldl_append, ih]
      simp

lemma range_map_filter (rows : List IngredientRecipe) :
    ∀ (l : List Nat),
      (List.range l.length).map
          (fun i => rows.filter (fun ir => ir.recipe == l.getD i 0))
        = l.map (fun rid => rows.filter (fun ir => ir.recipe == rid)) := by
  intro l
  induction l with
  | nil => simp
  | cons x xs ih =>
      rw [List.length_cons, List.range_succ_eq_map, List.map_cons, List.map_map]
      simp only [List.getD_cons_zero, List.map_cons]
      congr 1

/-- Claim C7: the shopping-list download hands the external helper one
list of ingredient-association rows per cart row of the requesting user,
in cart-row order, and its response is the helper's return value. -/
theorem download_shopping_cart_per_cart_row
    (α : Type) (dl : List (List IngredientRecipe) → α) (db : Db) (user : Nat) :
    download_shopping_cart dl db user = dl (shoppingListSpec db user) := by
  simp only [download_shopping_cart, shoppingListSpec]
  congr 1
  rw [foldl_range_append, List.nil_append, range_map_filter, List.map_map]
  rfl

/-- Claim C8: when add or delete raises a `ValidationError`, the database
is unchanged: no relation row is inserted or deleted. -/
theorem failed_toggle_leaves_state
    (db : Db) (u pk : Nat) (m : RelModel) (msg : String) :
    (∀ e, (add_recipe db u pk m msg).1 = .validationError e
        → (add_recipe db u pk m msg).2 = db)
      ∧ (∀ e, (delete_recipe db u pk m msg).1 = .validationError e
          → (delete_recipe db u pk m msg).2 = db) := by
  constructor
  · intro e h
    cases h1 : recipeExists db pk
    · simp [add_recipe, h1]
    · cases h2 : relExists (db.relRows m) u pk
      · simp [add_recipe, h1, h2] at h
      · simp [add_recipe, h1, h2]
  · intro e h
    cases h1 : recipeExists db pk
    · simp [delete_recipe, h1] at h
    · cases h2 : relExists (db.relRows m) u pk
      · simp [delete_recipe, h1, h2]
      · simp [delete_recipe, h1, h2] at h

/-- Instantiation of the C8 theorem: the add rejected for a missing
recipe leaves the empty database unchanged. -/
theorem failed_toggle_leaves_state_witness :
    (add_recipe dbEmpty 0 1 .Favorite "x").1
        = .validationError "Рецепта с таким id не существует"
      ∧ (add_recipe dbEmpty 0 1 .Favorite "x").2 = dbEmpty :=
  ⟨rfl, (failed_toggle_leaves_state dbEmpty 0 1 .Favorite "x").1 _ rfl⟩

/-- Claim C9: the `favorite` and `shopping_cart` actions are the generic
pair `add_recipe`/`delete_recipe` instantiated at the `Favorite` resp.
`ShoppingCart` model with their message texts, and each toggle leaves the
other relation table and the recipe table untouched. -/
theorem toggles_are_generic_instances
    (db : Db) (method : HttpMethod) (u pk : Nat) :
    favorite db method u pk
        = (match method with
            | .POST => add_recipe db u pk .Favorite "избранное"
            | .DELETE => delete_recipe db u pk .Favorite "избранное")
      ∧ shopping_cart db method u pk
          = (match method with
              | .POST => add_recipe db u pk .ShoppingCart "список покупок"
              | .DELETE => delete_recipe db u pk .ShoppingCart "список покупок")
      ∧ (favorite db method u pk).2.cart = db.cart
      ∧ (favorite db method u pk).2.recipes = db.recipes
      ∧ (shopping_cart db method u pk).2.favorites = db.favorites
      ∧ (shopping_cart db method u pk).2.recipes = db.recipes := by
  cases method
  · exact ⟨rfl, rfl, add_recipe_fav_cart db u pk _, add_recipe_recipes db u pk _ _,
      add_recipe_cart_fav db u pk _, add_recipe_recipes db u pk _ _⟩
  · exact ⟨rfl, rfl, delete_recipe_fav_cart db u pk _, delete_recipe_recipes db u pk _ _,
      delete_recipe_cart_fav db u pk _, delete_recipe_recipes db u pk _ _⟩

/-- Claim C10: the ingredient and tag viewsets expose exactly the list
and retrieve actions, every routed request leaves the database unchanged,
write actions are unreachable, and pagination is disabled on both. -/
theorem ingredient_tag_viewsets_readonly
    (db : Db) (a : ViewAction) (pk : Nat) (d : Db) (r : List Nat) :
    (ingredientDispatch db a pk = some (d, r) → d = db)
      ∧ (tagDispatch db a pk = some (d, r) → d = db)
      ∧ ingredientDispatch db .create pk = none
      ∧ ingredientDispatch db .update pk = none
      ∧ ingredientDispatch db .destroy pk = none
      ∧ tagDispatch db .create pk = none
      ∧ tagDispatch db .update pk = none
      ∧ tagDispatch db .destroy pk = none
      ∧ ingredientViewSetActions = [.list, .retrieve]
      ∧ tagViewSetActions = [.list, .retrieve]
      ∧ ingredientViewSetPagination = none
      ∧ tagViewSetPagination = none := by
  refine ⟨?_, ?_, rfl, rfl, rfl, rfl, rfl, rfl, rfl, rfl, rfl, rfl⟩
  · intro h
    cases a <;>
      simp [ingredientDispatch, ingredientViewSetActions, listModelMixinActions,
        retrieveModelMixinActions, genericViewSetActions] at h
    · exact h.1.symm
    · exact h.1.symm
  · intro h
    cases a <;>
      simp [tagDispatch, tagViewSetActions, listModelMixinActions,
        retrieveModelMixinActions, genericViewSetActions] at h
    · exact h.1.symm
    · exact h.1.symm

/-- Instantiation of the C10 theorem: a list request against the empty
database leaves it unchanged. -/
theorem ingredient_tag_viewsets_readonly_witness :
    ingredientDispatch dbEmpty .list 0 = some (dbEmpty, dbEmpty.ingredients)
      ∧ dbEmpty = dbEmpty :=
  ⟨rfl,
    (ingredient_tag_viewsets_readonly dbEmpty .list 0 dbEmpty dbEmpty.ingredients).1 rfl⟩

end Foodgram
